import Mathlib

/-!
Shallow embedding of the socket timestamping layer of linuxptp (sk.c).

The C file is modelled as executable Lean functions.  External effects
(the SIOCSHWTSTAMP ioctl, setsockopt, poll, recvmsg, the SIOCETHTOOL
capability query) are passed in as explicit parameters describing the
outcome the kernel or driver would produce, so every function here is a
pure function of its inputs.  Machine integers are modelled as Nat (all
the quantities involved are non-negative) except error return codes,
which are Int, matching the C convention of negative codes on failure.
-/

namespace LinuxPtpSk

/-! Constants from the Linux UAPI headers used by sk.c. -/

def SOL_SOCKET : Nat := 1

def SO_TIMESTAMPNS : Nat := 35

def SO_TIMESTAMPING : Nat := 37

def SO_SELECT_ERR_QUEUE : Nat := 45

def MSG_ERRQUEUE : Nat := 8192

def POLLIN : Nat := 1

def POLLPRI : Nat := 2

def POLLERR : Nat := 8

def HWTSTAMP_TX_ON : Nat := 1

def HWTSTAMP_TX_ONESTEP_SYNC : Nat := 2

def HWTSTAMP_FILTER_ALL : Nat := 1

def HWTSTAMP_FILTER_PTP_V2_L4_EVENT : Nat := 6

def HWTSTAMP_FILTER_PTP_V2_L2_EVENT : Nat := 9

def HWTSTAMP_FILTER_PTP_V2_EVENT : Nat := 12

def SOF_TIMESTAMPING_TX_HARDWARE : Nat := 1

def SOF_TIMESTAMPING_TX_SOFTWARE : Nat := 2

def SOF_TIMESTAMPING_RX_HARDWARE : Nat := 4

def SOF_TIMESTAMPING_RX_SOFTWARE : Nat := 8

def SOF_TIMESTAMPING_SOFTWARE : Nat := 16

def SOF_TIMESTAMPING_SYS_HARDWARE : Nat := 32

def SOF_TIMESTAMPING_RAW_HARDWARE : Nat := 64

def NS_PER_SEC : Nat := 1000000000

/-- Size in bytes of struct timespec on the 64-bit platforms sk.c targets. -/
def sizeof_timespec : Nat := 16

/-- Size in bytes of struct cmsghdr on the 64-bit platforms sk.c targets:
cmsg_len (size_t), cmsg_level (int), cmsg_type (int).  A record's declared
length cmsg_len includes this header, so a record declaring n payload bytes
has cmsg_len equal to sizeof_cmsghdr + n. -/
def sizeof_cmsghdr : Nat := 16

/-- Modelled from the spec: the Follow_Up message type nibble of the PTP
message header (the constant FOLLOW_UP comes from msg.h, which is not part
of the sources shown; its concrete value is irrelevant to the claims). -/
def FOLLOW_UP : Nat := 8

/-! Data model. -/

/-- enum timestamp_type from sk.h, as used by sk.c. -/
inductive timestamp_type
  | TS_SOFTWARE
  | TS_HARDWARE
  | TS_LEGACY_HW
  | TS_ONESTEP
deriving DecidableEq, Repr

/-- enum transport_type values appearing in the switch of sk_timestamping_init. -/
inductive transport_type
  | TRANS_UDS
  | TRANS_UDP_IPV4
  | TRANS_UDP_IPV6
  | TRANS_IEEE_802_3
  | TRANS_DEVICENET
  | TRANS_CONTROLNET
  | TRANS_PROFINET
deriving DecidableEq, Repr

/-- struct timespec. -/
structure timespec where
  tv_sec : Int
  tv_nsec : Int
deriving DecidableEq, Repr

/-- struct hwtstamp_config from linux/net_tstamp.h: the request sent to and
echoed back from the SIOCSHWTSTAMP ioctl.  memcmp over the struct is equality
of the three fields. -/
structure hwtstamp_config where
  flags : Nat
  tx_type : Nat
  rx_filter : Nat
deriving DecidableEq, Repr

/-- struct sk_ts_info: interface timestamp capabilities reported by
sk_get_ts_info. -/
structure sk_ts_info where
  valid : Nat
  phc_index : Int
  so_timestamping : Nat
  tx_types : Nat
  rx_filters : Nat
deriving DecidableEq, Repr

/-- The fields of struct ethtool_ts_info that sk_get_ts_info copies out. -/
structure ethtool_ts_info where
  phc_index : Int
  so_timestamping : Nat
  tx_types : Nat
  rx_filters : Nat
deriving DecidableEq, Repr

/-- struct hw_timestamp (sk.h): the timestamp result a receive call fills in. -/
structure hw_timestamp where
  type : timestamp_type
  ts : timespec
  sw : timespec
deriving DecidableEq, Repr

/-- One control message of the ancillary-data chain delivered by recvmsg.
cmsg_len is the record's declared length in bytes and, as in the C struct,
it INCLUDES the sizeof_cmsghdr bytes of the header, so the declared data
extent is cmsg_len - sizeof_cmsghdr bytes.  cmsg_data lists the timespec
values physically present in the control buffer at the record's data
offset (slot i occupying data bytes 16*i to 16*i+15); because the control
buffer continues past the record, these values may extend beyond the
record's declared extent — a read of slot i stays within the declared
length exactly when sizeof_cmsghdr + sizeof_timespec * (i+1) ≤ cmsg_len. -/
structure cmsghdr where
  cmsg_level : Nat
  cmsg_type : Nat
  cmsg_len : Nat
  cmsg_data : List timespec
deriving DecidableEq, Repr

/-! hwts_init (sk.c lines 53-86).  The driver parameter models the
SIOCSHWTSTAMP ioctl: given the requested configuration it returns the
ioctl return code together with the configuration it echoes back into
the caller's buffer. -/

/-- The hwtstamp_config request that hwts_init builds (memset to zero,
then tx_type and rx_filter filled in). -/
def hwts_req (rx_filter : Nat) (one_step : Bool) : hwtstamp_config :=
  { flags := 0
    tx_type := if one_step then HWTSTAMP_TX_ONESTEP_SYNC else HWTSTAMP_TX_ON
    rx_filter := rx_filter }

/-- hwts_init: issue the SIOCSHWTSTAMP request and verify the echoed
configuration, accepting a changed rx_filter only if it is
HWTSTAMP_FILTER_ALL or HWTSTAMP_FILTER_PTP_V2_EVENT and the tx_type is
unchanged. -/
def hwts_init (driver : hwtstamp_config → Int × hwtstamp_config)
    (rx_filter : Nat) (one_step : Bool) : Int :=
  let req := hwts_req rx_filter one_step
  let res := driver req
  let err := res.1
  let cfg := res.2
  if err < 0 then err
  else if cfg ≠ req ∧
      (cfg.tx_type ≠ req.tx_type ∨
        (cfg.rx_filter ≠ HWTSTAMP_FILTER_ALL ∧
         cfg.rx_filter ≠ HWTSTAMP_FILTER_PTP_V2_EVENT)) then -1
  else 0

/-! sk_get_ts_info (sk.c lines 125-167).  The ethtool parameter models the
SIOCETHTOOL ETHTOOL_GET_TS_INFO query: none covers every failure path
(socket creation failure, ioctl failure, or the query being unsupported),
some info is a successful query. -/

def sk_get_ts_info (ethtool : Option ethtool_ts_info) : Int × sk_ts_info :=
  match ethtool with
  | some info =>
      (0, { valid := 1
            phc_index := info.phc_index
            so_timestamping := info.so_timestamping
            tx_types := info.tx_types
            rx_filters := info.rx_filters })
  | none =>
      (-1, { valid := 0, phc_index := 0, so_timestamping := 0,
             tx_types := 0, rx_filters := 0 })

/-! sk_general_init (sk.c lines 115-123). -/

/-- sk_general_init: set the SO_TIMESTAMPNS socket option to 1 or 0
according to the global sk_check_fupsync.  Returns the error code and the
list of (option, value) setsockopt writes performed. -/
def sk_general_init (sk_check_fupsync : Nat) (so_timestampns_ok : Bool) :
    Int × List (Nat × Nat) :=
  let onval : Nat := if sk_check_fupsync ≠ 0 then 1 else 0
  if so_timestampns_ok then (0, [(SO_TIMESTAMPNS, onval)])
  else (-1, [(SO_TIMESTAMPNS, onval)])

/-! sk_timestamping_init (sk.c lines 480-554). -/

/-- The process-wide mutable globals of sk.c that this layer reads and
writes: the poll event masks and the follow-up-sync check option. -/
structure SkGlobals where
  sk_events : Nat
  sk_revents : Nat
  sk_check_fupsync : Nat
deriving DecidableEq, Repr

/-- Outcomes of the kernel calls sk_timestamping_init makes, supplied by the
environment: the SIOCSHWTSTAMP driver behaviour and whether each setsockopt
succeeds. -/
structure SockEnv where
  driver : hwtstamp_config → Int × hwtstamp_config
  so_timestamping_ok : Bool
  so_select_err_queue_ok : Bool
  so_timestampns_ok : Bool

/-- Result of sk_timestamping_init: the return code, the updated globals,
the rx filters passed to hwts_init in order, and the (option, value)
setsockopt writes performed in order. -/
structure InitResult where
  err : Int
  globals : SkGlobals
  hwts_attempts : List Nat
  sockopt_writes : List (Nat × Nat)
deriving Repr

/-- The SO_TIMESTAMPING flag set chosen for each timestamp type
(sk.c lines 485-504). -/
def so_timestamping_flags : timestamp_type → Nat
  | .TS_SOFTWARE =>
      SOF_TIMESTAMPING_TX_SOFTWARE |||
      SOF_TIMESTAMPING_RX_SOFTWARE |||
      SOF_TIMESTAMPING_SOFTWARE
  | .TS_HARDWARE =>
      SOF_TIMESTAMPING_TX_HARDWARE |||
      SOF_TIMESTAMPING_RX_HARDWARE |||
      SOF_TIMESTAMPING_RAW_HARDWARE
  | .TS_ONESTEP =>
      SOF_TIMESTAMPING_TX_HARDWARE |||
      SOF_TIMESTAMPING_RX_HARDWARE |||
      SOF_TIMESTAMPING_RAW_HARDWARE
  | .TS_LEGACY_HW =>
      SOF_TIMESTAMPING_TX_HARDWARE |||
      SOF_TIMESTAMPING_RX_HARDWARE |||
      SOF_TIMESTAMPING_SYS_HARDWARE

/-- The transport-specific fallback filter of sk_timestamping_init
(sk.c lines 509-522): none for the transports that return -1 there. -/
def transportFilter : transport_type → Option Nat
  | .TRANS_UDP_IPV4 => some HWTSTAMP_FILTER_PTP_V2_L4_EVENT
  | .TRANS_UDP_IPV6 => some HWTSTAMP_FILTER_PTP_V2_L4_EVENT
  | .TRANS_IEEE_802_3 => some HWTSTAMP_FILTER_PTP_V2_L2_EVENT
  | .TRANS_DEVICENET => none
  | .TRANS_CONTROLNET => none
  | .TRANS_PROFINET => none
  | .TRANS_UDS => none

/-- The hardware-configuration step of sk_timestamping_init (sk.c lines
506-532): for a non-software timestamp type, pick the transport fallback
filter (failing with no ioctl attempt when none is defined), try the broad
HWTSTAMP_FILTER_PTP_V2_EVENT filter, and on rejection make exactly one
further hwts_init attempt with the transport-specific filter.  Returns the
error code and the rx filters passed to hwts_init, in order. -/
def sk_timestamping_init_hw (env : SockEnv) (type : timestamp_type)
    (transport : transport_type) : Int × List Nat :=
  if type ≠ .TS_SOFTWARE then
    match transportFilter transport with
    | none => (-1, [])
    | some filter2 =>
      let filter1 := HWTSTAMP_FILTER_PTP_V2_EVENT
      let one_step := decide (type = .TS_ONESTEP)
      let err := hwts_init env.driver filter1 one_step
      if err ≠ 0 then
        (hwts_init env.driver filter2 one_step, [filter1, filter2])
      else (0, [filter1])
  else (0, [])

/-- sk_timestamping_init: negotiate the hardware timestamping mode (broad
filter first, transport-specific filter as the only fallback), then apply
the SO_TIMESTAMPING flags, the SO_SELECT_ERR_QUEUE option (degrading the
global poll masks if unsupported) and sk_general_init. -/
def sk_timestamping_init (g : SkGlobals) (env : SockEnv)
    (type : timestamp_type) (transport : transport_type) : InitResult :=
  let flags := so_timestamping_flags type
  let hw := sk_timestamping_init_hw env type transport
  if hw.1 ≠ 0 then
    { err := hw.1, globals := g, hwts_attempts := hw.2, sockopt_writes := [] }
  else
    let w1 := [(SO_TIMESTAMPING, flags)]
    if ¬ env.so_timestamping_ok then
      { err := -1, globals := g, hwts_attempts := hw.2, sockopt_writes := w1 }
    else
      let w2 := w1 ++ [(SO_SELECT_ERR_QUEUE, 1)]
      let g2 := if env.so_select_err_queue_ok then g
                else { g with sk_events := 0, sk_revents := POLLERR }
      let gi := sk_general_init g2.sk_check_fupsync env.so_timestampns_ok
      let w3 := w2 ++ gi.2
      if gi.1 ≠ 0 then
        { err := -1, globals := g2, hwts_attempts := hw.2, sockopt_writes := w3 }
      else
        { err := 0, globals := g2, hwts_attempts := hw.2, sockopt_writes := w3 }

/-! sk_receive (sk.c lines 301-455), the kernel ancillary-data variant. -/

/-- Outcome of the poll() call on the error queue: poll returned 0 (timeout),
a negative error, or a positive count with the given revents mask on the fd. -/
inductive PollResult
  | timeout
  | failed (e : Int)
  | event (revents : Nat)
deriving DecidableEq, Repr

/-- The error taxonomy of the TX-timestamp poll step as the spec names it.
This definition follows the spec's words; the theorems relate it to what
sk_receive does in each branch. -/
inductive TxPollClass
  | pollFailed
  | timedOut
  | spuriousWakeup
  | genuine
deriving DecidableEq, Repr

/-- Classification of a poll outcome against the configured sk_revents mask,
mirroring the branches at sk.c lines 343-356. -/
def spec_tx_poll_class (sk_revents : Nat) (p : PollResult) : TxPollClass :=
  match p with
  | .timeout => .timedOut
  | .failed _ => .pollFailed
  | .event r => if r &&& sk_revents = 0 then .spuriousWakeup else .genuine

/-- The cmsg walk of sk_receive (sk.c lines 402-420): thread through the
pointer to the last SO_TIMESTAMPING record seen and the hw_timestamp being
filled in.  The length guards are the verbatim C comparisons
cmsg_len < sizeof(struct timespec) * 3 and cmsg_len < sizeof(struct
timespec), applied to the header-INCLUSIVE cmsg_len; a record they reject
aborts the walk with -1. -/
def sk_receive_cmsg_loop :
    List cmsghdr → Option cmsghdr → hw_timestamp →
    Int × Option cmsghdr × hw_timestamp
  | [], tsm, hwts => (0, tsm, hwts)
  | cm :: rest, tsm, hwts =>
    if cm.cmsg_level = SOL_SOCKET ∧ cm.cmsg_type = SO_TIMESTAMPING then
      if cm.cmsg_len < sizeof_timespec * 3 then (-1, tsm, hwts)
      else sk_receive_cmsg_loop rest (some cm) hwts
    else if cm.cmsg_level = SOL_SOCKET ∧ cm.cmsg_type = SO_TIMESTAMPNS then
      if cm.cmsg_len < sizeof_timespec then (-1, tsm, hwts)
      else sk_receive_cmsg_loop rest tsm
        { hwts with sw := (cm.cmsg_data.get? 0).getD hwts.sw }
    else sk_receive_cmsg_loop rest tsm hwts

/-- The tail of sk_receive (sk.c lines 402-454): walk the cmsg chain, then
either zero the timestamp (no SO_TIMESTAMPING record) or select the slot of
the timestamp triple according to the configured timestamp type. -/
def sk_receive_extract (cms : List cmsghdr) (hwts : hw_timestamp) (cnt : Int) :
    Int × hw_timestamp :=
  let r := sk_receive_cmsg_loop cms none hwts
  if r.1 ≠ 0 then (r.1, r.2.2)
  else
    match r.2.1 with
    | none => (cnt, { r.2.2 with ts := ⟨0, 0⟩ })
    | some cm =>
      let hwts1 := r.2.2
      match hwts1.type with
      | .TS_SOFTWARE =>
          (cnt, { hwts1 with ts := (cm.cmsg_data.get? 0).getD hwts1.ts })
      | .TS_HARDWARE =>
          (cnt, { hwts1 with ts := (cm.cmsg_data.get? 2).getD hwts1.ts })
      | .TS_ONESTEP =>
          (cnt, { hwts1 with ts := (cm.cmsg_data.get? 2).getD hwts1.ts })
      | .TS_LEGACY_HW =>
          (cnt, { hwts1 with ts := (cm.cmsg_data.get? 1).getD hwts1.ts })

/-- sk_receive: for an error-queue fetch, first the bounded poll and the
revents validation (sk.c lines 343-356), then the receive and extraction.
cnt is the recvmsg return value and cms the decoded control chain.  The
third component counts how many times poll was invoked. -/
def sk_receive (sk_revents : Nat) (flags : Nat) (poll : PollResult)
    (cnt : Int) (cms : List cmsghdr) (hwts : hw_timestamp) :
    Int × hw_timestamp × Nat :=
  if flags = MSG_ERRQUEUE then
    match poll with
    | .timeout => (0, hwts, 1)
    | .failed e => (e, hwts, 1)
    | .event r =>
      if r &&& sk_revents = 0 then (-1, hwts, 1)
      else
        let res := sk_receive_extract cms hwts cnt
        (res.1, res.2, 1)
  else
    let res := sk_receive_extract cms hwts cnt
    (res.1, res.2, 0)

/-- The slot of the SO_TIMESTAMPING timestamp triple assigned to each
timestamp kind by the spec (section 4.2).  This definition follows the
spec's words; the theorems compare sk_receive against it. -/
def spec_ts_slot : timestamp_type → Nat
  | .TS_SOFTWARE => 0
  | .TS_HARDWARE => 2
  | .TS_ONESTEP => 2
  | .TS_LEGACY_HW => 1

/-- A timestamp record that the length guards of sk_receive (sk.c lines
406 and 413) reject: its header-inclusive declared length is below
sizeof(struct timespec) * 3 for SO_TIMESTAMPING, or below sizeof(struct
timespec) for SO_TIMESTAMPNS.  Note the thresholds are payload sizes while
cmsg_len also counts the sizeof_cmsghdr bytes of header, so passing a
guard does not imply the declared extent covers the slots read. -/
def cmsg_guard_rejected (cm : cmsghdr) : Prop :=
  (cm.cmsg_level = SOL_SOCKET ∧ cm.cmsg_type = SO_TIMESTAMPING ∧
    cm.cmsg_len < sizeof_timespec * 3) ∨
  (cm.cmsg_level = SOL_SOCKET ∧ cm.cmsg_type = SO_TIMESTAMPNS ∧
    cm.cmsg_len < sizeof_timespec)

/-- A timestamp record whose declared length is shorter than required for
its kind, in the spec's sense: the declared data extent past the cmsg
header holds less than three timespecs (SO_TIMESTAMPING) or less than one
timespec (SO_TIMESTAMPNS).  This definition follows the spec's words; the
C2 counterexample exhibits a record satisfying it that the program's
guards nevertheless accept. -/
def spec_cmsg_truncated (cm : cmsghdr) : Prop :=
  (cm.cmsg_level = SOL_SOCKET ∧ cm.cmsg_type = SO_TIMESTAMPING ∧
    cm.cmsg_len < sizeof_cmsghdr + sizeof_timespec * 3) ∨
  (cm.cmsg_level = SOL_SOCKET ∧ cm.cmsg_type = SO_TIMESTAMPNS ∧
    cm.cmsg_len < sizeof_cmsghdr + sizeof_timespec)

/-! The switch-assisted (SJA1105_TC) path. -/

/-- struct meta_data: the metadata frame following the Ethernet header,
carrying the three low bytes of the switch receive timestamp and the
ingress port.  The byte fields are uint8_t. -/
structure meta_data where
  rx_ts_byte0 : Nat
  rx_ts_byte1 : Nat
  rx_ts_byte2 : Nat
  src_port : Nat
deriving DecidableEq, Repr

/-- The value of the C expression (uint64_t)(~0xffffff): ~0xffffff is the
int value -0x1000000, sign-extended to 64 bits when combined with the
uint64_t rx_ts, so the mask keeps bits 24..63 and clears bits 0..23. -/
def SJA_RX_TS_MASK : Nat := 18446744073692774400

/-- The scaled coarse clock value (nanoseconds divided by 8 in uint64
arithmetic) that the reconstruction starts from (sk.c line 427). -/
def sja_scaled_clk (clk_sec clk_nsec : Nat) : Nat :=
  ((clk_sec * NS_PER_SEC + clk_nsec) % 2 ^ 64) / 8

/-- The receive-timestamp reconstruction of the SJA1105_TC path of
sk_receive (sk.c lines 427-431): scale the coarse clock read to the
switch clock domain (nanoseconds divided by 8, in uint64 arithmetic),
mask off its low three bytes and merge in the three metadata bytes. -/
def sja_rx_ts (clk_sec clk_nsec : Nat) (meta : meta_data) : Nat :=
  (sja_scaled_clk clk_sec clk_nsec &&& SJA_RX_TS_MASK) |||
  (meta.rx_ts_byte2 <<< 16 ||| meta.rx_ts_byte1 <<< 8 ||| meta.rx_ts_byte0)

/-! ptp_insert_correction (sk.c lines 279-298). -/

/-- The PTP message header fields sk.c reads and writes.  sequenceId is the
16-bit on-the-wire (network byte order) value; correction the 64-bit
correction field as stored in the message. -/
structure ptp_header where
  tsmt : Nat
  messageLength : Nat
  sequenceId : Nat
  correction : Nat
deriving DecidableEq, Repr

/-- A PTP message: the header plus all remaining bytes of the message. -/
structure ptp_message where
  header : ptp_header
  suffix : List Nat
deriving DecidableEq, Repr

/-- The per-interface state of struct host_if that ptp_insert_correction
reads: the most recently recorded Sync message, if any. -/
structure host_if where
  sync : Option ptp_message
deriving DecidableEq, Repr

/-- The fields of the transparent-clock context struct tc that
ptp_insert_correction reads. -/
structure tc where
  master_setup : Bool
  interface : host_if
deriving DecidableEq, Repr

/-- The egress timestamp cache (the global sync_tx_ts): the most recently
captured transmit timestamp and its validity flag. -/
structure egress_ts where
  tx_ts : Nat
  available : Nat
deriving DecidableEq, Repr

/-- ntohs on the little-endian hosts this code targets: swap the two bytes
of a 16-bit value. -/
def ntohs (x : Nat) : Nat :=
  (x % 256) * 256 + x / 256 % 256

/-- host2net64 on the little-endian hosts this code targets: reverse the
eight bytes of a 64-bit value. -/
def host2net64 (x : Nat) : Nat :=
  (x % 256) * 2 ^ 56 +
  (x / 2 ^ 8 % 256) * 2 ^ 48 +
  (x / 2 ^ 16 % 256) * 2 ^ 40 +
  (x / 2 ^ 24 % 256) * 2 ^ 32 +
  (x / 2 ^ 32 % 256) * 2 ^ 24 +
  (x / 2 ^ 40 % 256) * 2 ^ 16 +
  (x / 2 ^ 48 % 256) * 2 ^ 8 +
  x / 2 ^ 56 % 256

/-- ptp_insert_correction: on a forwarded Follow_Up message whose sequence
number matches the recorded Sync message of the interface, overwrite the
correction field with the cached egress timestamp converted to network
byte order; every other message passes through unchanged. -/
def ptp_insert_correction (clock : tc) (sync_tx_ts : egress_ts)
    (m : ptp_message) : ptp_message :=
  if m.header.tsmt &&& 15 = FOLLOW_UP then
    if clock.master_setup = false then m
    else
      match clock.interface.sync with
      | none => m
      | some sync =>
        if sync.header.sequenceId = ntohs m.header.sequenceId then
          { m with header := { m.header with
              correction := host2net64 sync_tx_ts.tx_ts } }
        else m
  else m

/-! Concrete inputs used by the witness and counterexample theorems. -/

/-- Default globals: the initial values of sk_events, sk_revents and
sk_check_fupsync in sk.c (sk_check_fupsync left at zero). -/
def g0 : SkGlobals := ⟨POLLPRI, POLLPRI, 0⟩

/-- A driver that accepts any SIOCSHWTSTAMP request and echoes it back
unchanged. -/
def envOk : SockEnv := ⟨fun req => (0, req), true, true, true⟩

/-- A driver that rejects every SIOCSHWTSTAMP request. -/
def envReject : SockEnv := ⟨fun req => (-1, req), true, true, true⟩

/-- A driver that accepts the request but echoes back the rx filter
narrowed to HWTSTAMP_FILTER_ALL. -/
def echoAllDriver : hwtstamp_config → Int × hwtstamp_config :=
  fun req => (0, { flags := 0, tx_type := req.tx_type,
                   rx_filter := HWTSTAMP_FILTER_ALL })

/-- A kernel-shaped SO_TIMESTAMPING record: declared length 64 covers the
16-byte header plus the full three-timespec triple it carries. -/
def cm0 : cmsghdr := ⟨SOL_SOCKET, SO_TIMESTAMPING, 64, [⟨1, 2⟩, ⟨3, 4⟩, ⟨5, 6⟩]⟩

/-- A SO_TIMESTAMPING record with declared length 48: it passes the guard
at sk.c line 406, yet past its 16-byte header it declares only 32 bytes —
two timespecs — so the third timespec at its data offset lies beyond the
declared extent. -/
def cmOver : cmsghdr := ⟨SOL_SOCKET, SO_TIMESTAMPING, 48, [⟨1, 2⟩, ⟨3, 4⟩, ⟨5, 6⟩]⟩

/-- A SO_TIMESTAMPING record with declared length 32, which the guard at
sk.c line 406 rejects. -/
def cmTrunc : cmsghdr := ⟨SOL_SOCKET, SO_TIMESTAMPING, 32, [⟨1, 1⟩, ⟨2, 2⟩]⟩

/-- A SO_TIMESTAMPNS record with declared length 16: the header alone, a
declared payload shorter than one timespec, yet the guard at sk.c line 413
accepts it; the timespec at its data offset lies wholly beyond the
declared extent. -/
def cmNS16 : cmsghdr := ⟨SOL_SOCKET, SO_TIMESTAMPNS, 16, [⟨7, 8⟩]⟩

/-- A hw_timestamp configured for hardware timestamping. -/
def hwts0 : hw_timestamp := ⟨.TS_HARDWARE, ⟨0, 0⟩, ⟨9, 9⟩⟩

/-- A recorded Sync message with sequenceId 1. -/
def sync0 : ptp_message := ⟨⟨0, 44, 1, 0⟩, []⟩

/-- A transparent-clock context that has recorded sync0. -/
def clock0 : tc := ⟨true, ⟨some sync0⟩⟩

/-- A Follow_Up message whose on-the-wire sequenceId 256 byte-swaps to 1. -/
def followUp0 : ptp_message := ⟨⟨8, 44, 256, 77⟩, [1, 2]⟩

/-- A non-Follow_Up message (message type nibble 11). -/
def announce0 : ptp_message := ⟨⟨11, 64, 5, 3⟩, [9]⟩

/-- A cached egress timestamp. -/
def egress0 : egress_ts := ⟨123456789, 1⟩

/-- A metadata frame with low timestamp bytes 5, 6, 7. -/
def meta0 : meta_data := ⟨5, 6, 7, 0⟩

/-! Helper lemmas on bitwise arithmetic. -/

/-- Bitwise or of a value shifted left by n with a value below 2 to the n
is their sum. -/
theorem shiftLeft_lor_eq_add (q L n : Nat) (hL : L < 2 ^ n) :
    (q <<< n) ||| L = q * 2 ^ n + L := by
  apply Nat.eq_of_testBit_eq
  intro i
  rw [Nat.testBit_lor, Nat.testBit_shiftLeft]
  by_cases hi : n ≤ i
  · have hL0 : L.testBit i = false :=
      Nat.testBit_eq_false_of_lt
        (lt_of_lt_of_le hL (Nat.pow_le_pow_right (by norm_num) hi))
    have hsum : (q * 2 ^ n + L).testBit i = q.testBit (i - n) := by
      rw [Nat.testBit_to_div_mod, Nat.testBit_to_div_mod]
      have hpow : (2 : Nat) ^ i = 2 ^ n * 2 ^ (i - n) := by
        rw [← pow_add]
        congr 1
        omega
      have hdiv : (q * 2 ^ n + L) / 2 ^ i = q / 2 ^ (i - n) := by
        rw [hpow, ← Nat.div_div_eq_div_mul]
        congr 1
        rw [Nat.mul_comm q, Nat.mul_add_div (by positivity),
            Nat.div_eq_of_lt hL, Nat.add_zero]
      rw [hdiv]
    rw [hsum, hL0]
    simp [hi]
  · push_neg at hi
    have hq0 : (decide (i ≥ n) && q.testBit (i - n)) = false := by
      simp
      omega
    rw [hq0]
    rw [Nat.testBit_to_div_mod, Nat.testBit_to_div_mod]
    have e1 : q * 2 ^ n + L = L + 2 ^ i * (q * 2 ^ (n - i)) := by
      have hpow : (2 : Nat) ^ n = 2 ^ i * 2 ^ (n - i) := by
        rw [← pow_add]
        congr 1
        omega
      rw [hpow]
      ring
    have e2 : (q * 2 ^ n + L) / 2 ^ i = L / 2 ^ i + q * 2 ^ (n - i) := by
      rw [e1, Nat.add_mul_div_left _ _ (by positivity)]
    have e3 : q * 2 ^ (n - i) = q * 2 ^ (n - i - 1) * 2 := by
      rw [Nat.mul_assoc, ← pow_succ]
      congr 2
      omega
    rw [e2, e3, Nat.add_mul_mod_self_right]
    simp

/-- Masking a 64-bit value with the sign-extended complement of 0xffffff
keeps exactly its bits above the low three bytes. -/
theorem land_sja_mask (x : Nat) (hx : x < 2 ^ 64) :
    x &&& SJA_RX_TS_MASK = (x / 2 ^ 24) <<< 24 := by
  have hmask : SJA_RX_TS_MASK = (2 ^ 40 - 1) <<< 24 := by
    rw [Nat.shiftLeft_eq]
    norm_num [SJA_RX_TS_MASK]
  apply Nat.eq_of_testBit_eq
  intro i
  rw [hmask, Nat.testBit_land, Nat.testBit_shiftLeft, Nat.testBit_shiftLeft,
      Nat.testBit_two_pow_sub_one]
  by_cases h24 : 24 ≤ i
  · have hdiv : (x / 2 ^ 24).testBit (i - 24) = x.testBit i := by
      rw [Nat.testBit_to_div_mod, Nat.testBit_to_div_mod,
          Nat.div_div_eq_div_mul, ← pow_add]
      have h1 : 24 + (i - 24) = i := by omega
      rw [h1]
    rw [hdiv]
    by_cases h64 : i < 64
    · have h40 : i - 24 < 40 := by omega
      simp [h24, h40]
    · have hxf : x.testBit i = false :=
        Nat.testBit_eq_false_of_lt
          (lt_of_lt_of_le hx (Nat.pow_le_pow_right (by norm_num) (by omega)))
      have h40 : ¬ (i - 24 < 40) := by omega
      simp [h24, h40, hxf]
  · simp [h24]

/-! Claim theorems. -/

/-- C9: in the switch-assisted path, for every coarse clock value and every
metadata frame, the reconstructed receive timestamp in the scaled (ns/8)
switch clock domain has its low three bytes exactly equal to the metadata
frame's three timestamp bytes, and all of its higher-order bits exactly
equal to the corresponding bits of the scaled coarse clock value. -/
theorem sja_rx_ts_reconstruction (clk_sec clk_nsec : Nat) (m : meta_data)
    (hb0 : m.rx_ts_byte0 < 256) (hb1 : m.rx_ts_byte1 < 256)
    (hb2 : m.rx_ts_byte2 < 256) :
    sja_rx_ts clk_sec clk_nsec m % 2 ^ 24 =
      m.rx_ts_byte2 * 2 ^ 16 + m.rx_ts_byte1 * 2 ^ 8 + m.rx_ts_byte0 ∧
    sja_rx_ts clk_sec clk_nsec m / 2 ^ 24 =
      sja_scaled_clk clk_sec clk_nsec / 2 ^ 24 := by
  have hLlt : m.rx_ts_byte2 * 2 ^ 16 + m.rx_ts_byte1 * 2 ^ 8 +
      m.rx_ts_byte0 < 2 ^ 24 := by
    omega
  have hL1 : m.rx_ts_byte2 <<< 16 ||| m.rx_ts_byte1 <<< 8 =
      m.rx_ts_byte2 * 2 ^ 16 + m.rx_ts_byte1 * 2 ^ 8 := by
    rw [shiftLeft_lor_eq_add m.rx_ts_byte2 _ 16
          (by rw [Nat.shiftLeft_eq]; omega),
        Nat.shiftLeft_eq]
  have hL2 : m.rx_ts_byte2 * 2 ^ 16 + m.rx_ts_byte1 * 2 ^ 8 =
      (m.rx_ts_byte2 * 2 ^ 8 + m.rx_ts_byte1) <<< 8 := by
    rw [Nat.shiftLeft_eq]
    ring
  have hLval : (m.rx_ts_byte2 <<< 16 ||| m.rx_ts_byte1 <<< 8 |||
      m.rx_ts_byte0) =
      m.rx_ts_byte2 * 2 ^ 16 + m.rx_ts_byte1 * 2 ^ 8 + m.rx_ts_byte0 := by
    rw [hL1, hL2, shiftLeft_lor_eq_add _ _ 8 hb0, Nat.shiftLeft_eq]
  have hrxlt : sja_scaled_clk clk_sec clk_nsec < 2 ^ 64 := by
    unfold sja_scaled_clk
    exact lt_of_le_of_lt (Nat.div_le_self _ _)
      (Nat.mod_lt _ (by norm_num))
  have hmain : sja_rx_ts clk_sec clk_nsec m =
      sja_scaled_clk clk_sec clk_nsec / 2 ^ 24 * 2 ^ 24 +
      (m.rx_ts_byte2 * 2 ^ 16 + m.rx_ts_byte1 * 2 ^ 8 + m.rx_ts_byte0) := by
    unfold sja_rx_ts
    rw [land_sja_mask _ hrxlt, hLval, shiftLeft_lor_eq_add _ _ 24 hLlt]
  constructor
  · rw [hmain, Nat.mul_comm, Nat.mul_add_mod, Nat.mod_eq_of_lt hLlt]
  · rw [hmain, Nat.mul_comm, Nat.mul_add_div (by norm_num),
        Nat.div_eq_of_lt hLlt, Nat.add_zero]

/-- C9 witness: the reconstruction property evaluated at a concrete clock
read and metadata frame. -/
theorem sja_rx_ts_reconstruction_witness :
    sja_rx_ts 1 2 meta0 % 2 ^ 24 =
      meta0.rx_ts_byte2 * 2 ^ 16 + meta0.rx_ts_byte1 * 2 ^ 8 +
      meta0.rx_ts_byte0 ∧
    sja_rx_ts 1 2 meta0 / 2 ^ 24 = sja_scaled_clk 1 2 / 2 ^ 24 :=
  sja_rx_ts_reconstruction 1 2 meta0 (by decide) (by decide) (by decide)

/-- C6: in the switch-assisted path, ptp_insert_correction overwrites a
forwarded Follow_Up message's correction field with the cached egress
timestamp in network byte order only when the Follow_Up's sequence number
matches the recorded Sync sequence number for the interface; a Follow_Up
whose sequence number does not match passes through unchanged. -/
theorem ptp_insert_correction_seq_match (clock : tc) (stx : egress_ts)
    (m : ptp_message) (hf : m.header.tsmt &&& 15 = FOLLOW_UP) :
    (∀ sync, clock.interface.sync = some sync →
       sync.header.sequenceId ≠ ntohs m.header.sequenceId →
       ptp_insert_correction clock stx m = m) ∧
    (clock.master_setup = true →
     ∀ sync, clock.interface.sync = some sync →
       sync.header.sequenceId = ntohs m.header.sequenceId →
       ptp_insert_correction clock stx m =
         { m with header := { m.header with
             correction := host2net64 stx.tx_ts } }) ∧
    (ptp_insert_correction clock stx m ≠ m →
       ∃ sync, clock.interface.sync = some sync ∧
         sync.header.sequenceId = ntohs m.header.sequenceId) := by
  refine ⟨?_, ?_, ?_⟩
  · intro sync hs hne
    unfold ptp_insert_correction
    rw [if_pos hf, hs]
    cases hms : clock.master_setup
    · simp
    · simp [hne]
  · intro hms sync hs hseq
    unfold ptp_insert_correction
    rw [if_pos hf, hs, hms]
    simp [hseq]
  · intro hne
    by_contra hcon
    push_neg at hcon
    apply hne
    unfold ptp_insert_correction
    rw [if_pos hf]
    by_cases hms : clock.master_setup = false
    · rw [if_pos hms]
    · rw [if_neg hms]
      cases hsy : clock.interface.sync with
      | none => rfl
      | some sync => simp [hcon sync hsy]

/-- C6 witness: the correction-insertion property at a concrete context,
egress cache and Follow_Up message. -/
theorem ptp_insert_correction_seq_match_witness :
    (∀ sync, clock0.interface.sync = some sync →
       sync.header.sequenceId ≠ ntohs followUp0.header.sequenceId →
       ptp_insert_correction clock0 egress0 followUp0 = followUp0) ∧
    (clock0.master_setup = true →
     ∀ sync, clock0.interface.sync = some sync →
       sync.header.sequenceId = ntohs followUp0.header.sequenceId →
       ptp_insert_correction clock0 egress0 followUp0 =
         { followUp0 with header := { followUp0.header with
             correction := host2net64 egress0.tx_ts } }) ∧
    (ptp_insert_correction clock0 egress0 followUp0 ≠ followUp0 →
       ∃ sync, clock0.interface.sync = some sync ∧
         sync.header.sequenceId = ntohs followUp0.header.sequenceId) :=
  ptp_insert_correction_seq_match clock0 egress0 followUp0 (by decide)

/-- C10: ptp_insert_correction leaves every message whose message-type
nibble is not Follow_Up completely unchanged, for every state of the
transparent-clock context and egress timestamp cache. -/
theorem ptp_insert_correction_non_followup (clock : tc) (stx : egress_ts)
    (m : ptp_message) (hnf : m.header.tsmt &&& 15 ≠ FOLLOW_UP) :
    ptp_insert_correction clock stx m = m := by
  unfold ptp_insert_correction
  rw [if_neg hnf]

/-- C10 witness: a non-Follow_Up message passes through unchanged. -/
theorem ptp_insert_correction_non_followup_witness :
    ptp_insert_correction clock0 egress0 announce0 = announce0 :=
  ptp_insert_correction_non_followup clock0 egress0 announce0 (by decide)

/-- C7 counterexample: the capability query on an interface that does not
support it does zero every field and clear the validity flag, but the
function reports the outcome through the same -1 error return code as any
genuine failure, so the outcome is an error by the return-code convention
of this layer. -/
theorem sk_get_ts_info_unsupported_counterexample :
    (sk_get_ts_info none).2.valid = 0 ∧
    (sk_get_ts_info none).2.phc_index = 0 ∧
    (sk_get_ts_info none).2.so_timestamping = 0 ∧
    (sk_get_ts_info none).2.tx_types = 0 ∧
    (sk_get_ts_info none).2.rx_filters = 0 ∧
    (sk_get_ts_info none).1 = -1 ∧
    ¬ (sk_get_ts_info none).1 = 0 := by
  decide

/-- C7 (amended): querying the capabilities of an interface that does not
support the query yields a result with the validity flag cleared and every
other field zero, and the function returns the error code -1; unsupported
is signalled to callers by the cleared valid flag, not by a distinct
return code. -/
theorem sk_get_ts_info_unsupported :
    sk_get_ts_info none =
      (-1, { valid := 0, phc_index := 0, so_timestamping := 0,
             tx_types := 0, rx_filters := 0 }) := rfl

/-- C4: after a successful hardware-timestamping ioctl whose echoed
configuration differs from the request, hwts_init fails whenever the echoed
transmit mode differs from the requested one, and whenever the echoed
receive filter is anything other than HWTSTAMP_FILTER_ALL or
HWTSTAMP_FILTER_PTP_V2_EVENT; an echoed filter equal to one of those two
values with the transmit mode unchanged is accepted. -/
theorem hwts_init_echo_verification
    (driver : hwtstamp_config → Int × hwtstamp_config)
    (rx_filter : Nat) (one_step : Bool) (err : Int) (cfg : hwtstamp_config)
    (hdrv : driver (hwts_req rx_filter one_step) = (err, cfg))
    (hok : 0 ≤ err)
    (hdiff : cfg ≠ hwts_req rx_filter one_step) :
    (cfg.tx_type ≠ (hwts_req rx_filter one_step).tx_type →
      hwts_init driver rx_filter one_step = -1) ∧
    ((cfg.rx_filter ≠ HWTSTAMP_FILTER_ALL ∧
      cfg.rx_filter ≠ HWTSTAMP_FILTER_PTP_V2_EVENT) →
      hwts_init driver rx_filter one_step = -1) ∧
    ((cfg.tx_type = (hwts_req rx_filter one_step).tx_type ∧
      (cfg.rx_filter = HWTSTAMP_FILTER_ALL ∨
       cfg.rx_filter = HWTSTAMP_FILTER_PTP_V2_EVENT)) →
      hwts_init driver rx_filter one_step = 0) := by
  have hred : hwts_init driver rx_filter one_step =
      if cfg ≠ hwts_req rx_filter one_step ∧
          (cfg.tx_type ≠ (hwts_req rx_filter one_step).tx_type ∨
            (cfg.rx_filter ≠ HWTSTAMP_FILTER_ALL ∧
             cfg.rx_filter ≠ HWTSTAMP_FILTER_PTP_V2_EVENT)) then -1
      else 0 := by
    simp only [hwts_init, hdrv]
    rw [if_neg (by omega)]
  refine ⟨fun htx => ?_, fun hrx => ?_, fun hcompat => ?_⟩
  · rw [hred, if_pos ⟨hdiff, Or.inl htx⟩]
  · rw [hred, if_pos ⟨hdiff, Or.inr hrx⟩]
  · rw [hred, if_neg ?_]
    rintro ⟨-, h2⟩
    rcases h2 with h | ⟨h3, h4⟩
    · exact h hcompat.1
    · rcases hcompat.2 with h5 | h5
      · exact h3 h5
      · exact h4 h5

/-- C4 witness: a driver that accepts the broad-filter request but echoes
the receive filter narrowed to HWTSTAMP_FILTER_ALL with the transmit mode
unchanged. -/
theorem hwts_init_echo_verification_witness :
    ((⟨0, HWTSTAMP_TX_ON, HWTSTAMP_FILTER_ALL⟩ : hwtstamp_config).tx_type ≠
        (hwts_req HWTSTAMP_FILTER_PTP_V2_EVENT false).tx_type →
      hwts_init echoAllDriver HWTSTAMP_FILTER_PTP_V2_EVENT false = -1) ∧
    (((⟨0, HWTSTAMP_TX_ON, HWTSTAMP_FILTER_ALL⟩ : hwtstamp_config).rx_filter ≠
        HWTSTAMP_FILTER_ALL ∧
      (⟨0, HWTSTAMP_TX_ON, HWTSTAMP_FILTER_ALL⟩ : hwtstamp_config).rx_filter ≠
        HWTSTAMP_FILTER_PTP_V2_EVENT) →
      hwts_init echoAllDriver HWTSTAMP_FILTER_PTP_V2_EVENT false = -1) ∧
    (((⟨0, HWTSTAMP_TX_ON, HWTSTAMP_FILTER_ALL⟩ : hwtstamp_config).tx_type =
        (hwts_req HWTSTAMP_FILTER_PTP_V2_EVENT false).tx_type ∧
      ((⟨0, HWTSTAMP_TX_ON, HWTSTAMP_FILTER_ALL⟩ : hwtstamp_config).rx_filter =
        HWTSTAMP_FILTER_ALL ∨
       (⟨0, HWTSTAMP_TX_ON, HWTSTAMP_FILTER_ALL⟩ : hwtstamp_config).rx_filter =
        HWTSTAMP_FILTER_PTP_V2_EVENT)) →
      hwts_init echoAllDriver HWTSTAMP_FILTER_PTP_V2_EVENT false = 0) :=
  hwts_init_echo_verification echoAllDriver HWTSTAMP_FILTER_PTP_V2_EVENT
    false 0 ⟨0, HWTSTAMP_TX_ON, HWTSTAMP_FILTER_ALL⟩ rfl (by decide)
    (by decide)

/-- C5: for an error-queue fetch, a poll that expires with no event is a
failure classified as a timeout (return value 0), distinct from a poll that
wakes without the expected error-indication bits (spurious wakeup, return
value -1); both are reported to the caller, and exactly one poll is issued
in every case, so neither outcome is retried internally. -/
theorem sk_receive_txpoll_classification (srv : Nat) (poll : PollResult)
    (cnt : Int) (cms : List cmsghdr) (hwts : hw_timestamp) :
    (poll = .timeout →
       spec_tx_poll_class srv poll = .timedOut ∧
       sk_receive srv MSG_ERRQUEUE poll cnt cms hwts = (0, hwts, 1)) ∧
    (∀ r, poll = .event r → r &&& srv = 0 →
       spec_tx_poll_class srv poll = .spuriousWakeup ∧
       sk_receive srv MSG_ERRQUEUE poll cnt cms hwts = (-1, hwts, 1)) ∧
    TxPollClass.timedOut ≠ TxPollClass.spuriousWakeup ∧
    (sk_receive srv MSG_ERRQUEUE poll cnt cms hwts).2.2 = 1 := by
  refine ⟨?_, ?_, by decide, ?_⟩
  · rintro rfl
    exact ⟨rfl, by simp [sk_receive]⟩
  · rintro r rfl hz
    exact ⟨by simp [spec_tx_poll_class, hz], by simp [sk_receive, hz]⟩
  · cases poll with
    | timeout => simp [sk_receive]
    | failed e => simp [sk_receive]
    | event r =>
      simp only [sk_receive]
      rw [if_pos trivial]
      split
      · rfl
      · rfl

/-- C5 witness: the timeout and spurious-wakeup outcomes evaluated at
concrete poll results (POLLERR masked against POLLPRI is zero). -/
theorem sk_receive_txpoll_classification_witness :
    spec_tx_poll_class POLLPRI .timeout = .timedOut ∧
    sk_receive POLLPRI MSG_ERRQUEUE .timeout 0 [] hwts0 = (0, hwts0, 1) ∧
    spec_tx_poll_class POLLPRI (.event POLLERR) = .spuriousWakeup ∧
    sk_receive POLLPRI MSG_ERRQUEUE (.event POLLERR) 0 [] hwts0 =
      (-1, hwts0, 1) := by
  have h1 := (sk_receive_txpoll_classification POLLPRI .timeout 0 [] hwts0).1
    rfl
  have h2 := (sk_receive_txpoll_classification POLLPRI (.event POLLERR) 0 []
    hwts0).2.1 POLLERR rfl (by decide)
  exact ⟨h1.1, h1.2, h2.1, h2.2⟩

/-- Extraction from a single guard-passing SO_TIMESTAMPING record picks
the slot of the triple that the configured timestamp type selects. -/
theorem sk_receive_extract_single (cm : cmsghdr) (hwts : hw_timestamp)
    (cnt : Int) (hl : cm.cmsg_level = SOL_SOCKET)
    (ht : cm.cmsg_type = SO_TIMESTAMPING)
    (hnl : ¬ cm.cmsg_len < sizeof_timespec * 3) :
    sk_receive_extract [cm] hwts cnt =
      (cnt, { hwts with
        ts := (cm.cmsg_data.get? (spec_ts_slot hwts.type)).getD hwts.ts }) := by
  rcases hwts with ⟨ty, ts0, sw0⟩
  cases ty <;>
    simp [sk_receive_extract, sk_receive_cmsg_loop, hl, ht, hnl, spec_ts_slot]

/-- C1 counterexample: a SO_TIMESTAMPING record with header-inclusive
declared length 48 passes the guard at sk.c line 406 although its declared
extent past the 16-byte header holds only two timespecs; extraction for
the Hardware kind succeeds and takes slot 2, whose byte extent ends at
offset 64, past the record's declared length — so extraction can read past
the declared length. -/
theorem sk_receive_slot_overread_counterexample :
    sk_receive POLLPRI 0 .timeout 7 [cmOver] hwts0 =
      (7, { hwts0 with ts := ⟨5, 6⟩ }, 0) ∧
    cmOver.cmsg_len <
      sizeof_cmsghdr + sizeof_timespec * (spec_ts_slot hwts0.type + 1) := by
  decide

/-- C1 (amended): for every configured timestamp kind, sk_receive extracts
the timestamp from the fixed slot of the SO_TIMESTAMPING triple (Software
slot 0, Hardware and OneStep slot 2, LegacyHardware slot 1); the read
stays within the record's declared length whenever the header-inclusive
declared length covers the cmsg header plus the full triple, as it does
for every record the kernel delivers — the guard alone, comparing that
length against three timespecs without the header, does not ensure it. -/
theorem sk_receive_slot_selection (cm : cmsghdr) (hwts : hw_timestamp)
    (cnt : Int) (hl : cm.cmsg_level = SOL_SOCKET)
    (ht : cm.cmsg_type = SO_TIMESTAMPING)
    (hdata : 3 ≤ cm.cmsg_data.length)
    (hguard : sizeof_timespec * 3 ≤ cm.cmsg_len) :
    (∃ v, cm.cmsg_data.get? (spec_ts_slot hwts.type) = some v ∧
      sk_receive POLLPRI 0 .timeout cnt [cm] hwts =
        (cnt, { hwts with ts := v }, 0)) ∧
    (sizeof_cmsghdr + sizeof_timespec * 3 ≤ cm.cmsg_len →
      sizeof_cmsghdr + sizeof_timespec * (spec_ts_slot hwts.type + 1) ≤
        cm.cmsg_len) := by
  have hslot : spec_ts_slot hwts.type < 3 := by
    cases h : hwts.type <;> simp [spec_ts_slot]
  obtain ⟨v, hv⟩ : ∃ v, cm.cmsg_data.get? (spec_ts_slot hwts.type) = some v :=
    ⟨_, List.get?_eq_get (lt_of_lt_of_le hslot hdata)⟩
  refine ⟨⟨v, hv, ?_⟩, ?_⟩
  · have hrecv : sk_receive POLLPRI 0 .timeout cnt [cm] hwts =
        ((sk_receive_extract [cm] hwts cnt).1,
         (sk_receive_extract [cm] hwts cnt).2, 0) := by
      simp [sk_receive, MSG_ERRQUEUE]
    rw [hrecv, sk_receive_extract_single cm hwts cnt hl ht
      (Nat.not_lt.mpr hguard), hv]
    simp
  · intro hfull
    calc sizeof_cmsghdr + sizeof_timespec * (spec_ts_slot hwts.type + 1)
        ≤ sizeof_cmsghdr + sizeof_timespec * 3 :=
          Nat.add_le_add_left (Nat.mul_le_mul_left _ (by omega)) _
      _ ≤ cm.cmsg_len := hfull

/-- C1 (amended) witness: slot selection evaluated on a concrete
kernel-shaped record (declared length 64) with the hardware timestamp
kind. -/
theorem sk_receive_slot_selection_witness :
    (∃ v, cm0.cmsg_data.get? (spec_ts_slot hwts0.type) = some v ∧
      sk_receive POLLPRI 0 .timeout 7 [cm0] hwts0 =
        (7, { hwts0 with ts := v }, 0)) ∧
    (sizeof_cmsghdr + sizeof_timespec * 3 ≤ cm0.cmsg_len →
      sizeof_cmsghdr + sizeof_timespec * (spec_ts_slot hwts0.type + 1) ≤
        cm0.cmsg_len) :=
  sk_receive_slot_selection cm0 hwts0 7 rfl rfl (by decide) (by decide)

/-- The cmsg walk never touches the configured type or the hardware
timestamp slot of the result. -/
theorem cmsg_loop_preserves (cms : List cmsghdr) :
    ∀ (tsm : Option cmsghdr) (hwts : hw_timestamp),
    (sk_receive_cmsg_loop cms tsm hwts).2.2.type = hwts.type ∧
    (sk_receive_cmsg_loop cms tsm hwts).2.2.ts = hwts.ts := by
  induction cms with
  | nil =>
    intro tsm hwts
    exact ⟨rfl, rfl⟩
  | cons cm rest ih =>
    intro tsm hwts
    simp only [sk_receive_cmsg_loop]
    by_cases hA : cm.cmsg_level = SOL_SOCKET ∧ cm.cmsg_type = SO_TIMESTAMPING
    · rw [if_pos hA]
      by_cases hB : cm.cmsg_len < sizeof_timespec * 3
      · rw [if_pos hB]
        exact ⟨rfl, rfl⟩
      · rw [if_neg hB]
        exact ih _ _
    · rw [if_neg hA]
      by_cases hC : cm.cmsg_level = SOL_SOCKET ∧ cm.cmsg_type = SO_TIMESTAMPNS
      · rw [if_pos hC]
        by_cases hD : cm.cmsg_len < sizeof_timespec
        · rw [if_pos hD]
          exact ⟨rfl, rfl⟩
        · rw [if_neg hD]
          exact ih _ _
      · rw [if_neg hC]
        exact ih _ _

/-- If any record of the chain is rejected by a length guard, the cmsg
walk stops with -1. -/
theorem cmsg_loop_guard_rejected (cms : List cmsghdr) :
    ∀ (tsm : Option cmsghdr) (hwts : hw_timestamp),
    (∃ cm ∈ cms, cmsg_guard_rejected cm) →
    (sk_receive_cmsg_loop cms tsm hwts).1 = -1 := by
  induction cms with
  | nil =>
    intro tsm hwts h
    simp at h
  | cons cm rest ih =>
    intro tsm hwts h
    obtain ⟨cm', hmem, htr⟩ := h
    simp only [List.mem_cons] at hmem
    simp only [sk_receive_cmsg_loop]
    rcases hmem with rfl | hmem
    · rcases htr with ⟨h1, h2, h3⟩ | ⟨h1, h2, h3⟩
      · rw [if_pos ⟨h1, h2⟩, if_pos h3]
      · have hne : ¬ (cm'.cmsg_level = SOL_SOCKET ∧
            cm'.cmsg_type = SO_TIMESTAMPING) := by
          intro hc
          exact absurd (h2.symm.trans hc.2) (by decide)
        rw [if_neg hne, if_pos ⟨h1, h2⟩, if_pos h3]
    · by_cases hA : cm.cmsg_level = SOL_SOCKET ∧ cm.cmsg_type = SO_TIMESTAMPING
      · rw [if_pos hA]
        by_cases hB : cm.cmsg_len < sizeof_timespec * 3
        · rw [if_pos hB]
        · rw [if_neg hB]
          exact ih _ _ ⟨cm', hmem, htr⟩
      · rw [if_neg hA]
        by_cases hC : cm.cmsg_level = SOL_SOCKET ∧ cm.cmsg_type = SO_TIMESTAMPNS
        · rw [if_pos hC]
          by_cases hD : cm.cmsg_len < sizeof_timespec
          · rw [if_pos hD]
          · rw [if_neg hD]
            exact ih _ _ ⟨cm', hmem, htr⟩
        · rw [if_neg hC]
          exact ih _ _ ⟨cm', hmem, htr⟩

/-- Every value the cmsg walk stores into the software timestamp slot is
either the initial value or the first timespec at the data offset of a
SO_TIMESTAMPNS record of the chain that passes the length guard at sk.c
line 413 (which does not imply the timespec lies within the record's
declared extent, since the guard threshold omits the cmsg header). -/
theorem cmsg_loop_sw (cms : List cmsghdr) :
    ∀ (tsm : Option cmsghdr) (hwts : hw_timestamp),
    (sk_receive_cmsg_loop cms tsm hwts).2.2.sw = hwts.sw ∨
    ∃ cm ∈ cms, cm.cmsg_level = SOL_SOCKET ∧ cm.cmsg_type = SO_TIMESTAMPNS ∧
      sizeof_timespec ≤ cm.cmsg_len ∧
      ∃ v, cm.cmsg_data.get? 0 = some v ∧
        (sk_receive_cmsg_loop cms tsm hwts).2.2.sw = v := by
  induction cms with
  | nil =>
    intro tsm hwts
    exact Or.inl rfl
  | cons cm rest ih =>
    intro tsm hwts
    simp only [sk_receive_cmsg_loop]
    by_cases hA : cm.cmsg_level = SOL_SOCKET ∧ cm.cmsg_type = SO_TIMESTAMPING
    · rw [if_pos hA]
      by_cases hB : cm.cmsg_len < sizeof_timespec * 3
      · rw [if_pos hB]
        exact Or.inl rfl
      · rw [if_neg hB]
        rcases ih (some cm) hwts with h | ⟨cm', hm, hl', ht', hlen', v, hv, hsw⟩
        · exact Or.inl h
        · exact Or.inr ⟨cm', List.mem_cons_of_mem _ hm, hl', ht', hlen', v,
            hv, hsw⟩
    · rw [if_neg hA]
      by_cases hC : cm.cmsg_level = SOL_SOCKET ∧ cm.cmsg_type = SO_TIMESTAMPNS
      · rw [if_pos hC]
        by_cases hD : cm.cmsg_len < sizeof_timespec
        · rw [if_pos hD]
          exact Or.inl rfl
        · rw [if_neg hD]
          rcases ih tsm { hwts with sw := (cm.cmsg_data.get? 0).getD hwts.sw }
            with h | ⟨cm', hm, hl', ht', hlen', v, hv, hsw⟩
          · cases hg : cm.cmsg_data.get? 0 with
            | none =>
              left
              rw [hg] at h
              simpa using h
            | some v =>
              right
              refine ⟨cm, List.mem_cons_self _ _, hC.1, hC.2, by omega, v,
                hg, ?_⟩
              rw [hg] at h
              simpa using h
          · exact Or.inr ⟨cm', List.mem_cons_of_mem _ hm, hl', ht', hlen', v,
              hv, hsw⟩
      · rw [if_neg hC]
        rcases ih tsm hwts with h | ⟨cm', hm, hl', ht', hlen', v, hv, hsw⟩
        · exact Or.inl h
        · exact Or.inr ⟨cm', List.mem_cons_of_mem _ hm, hl', ht', hlen', v,
            hv, hsw⟩

/-- C2 counterexample: a SO_TIMESTAMPNS record whose header-inclusive
declared length 16 covers the cmsg header alone — a declared payload
shorter than the one timespec its kind requires — passes the guard at sk.c
line 413; sk_receive succeeds (returning the byte count, not an error) and
stores into the software timestamp slot a timespec whose byte extent lies
wholly beyond the record's declared length. -/
theorem sk_receive_truncation_accepted_counterexample :
    spec_cmsg_truncated cmNS16 ∧
    cmNS16.cmsg_len < sizeof_cmsghdr + sizeof_timespec ∧
    sk_receive POLLPRI 0 .timeout 7 [cmNS16] hwts0 =
      (7, { hwts0 with ts := ⟨0, 0⟩, sw := ⟨7, 8⟩ }, 0) ∧
    ¬ (sk_receive POLLPRI 0 .timeout 7 [cmNS16] hwts0).1 = -1 := by
  refine ⟨Or.inr ⟨rfl, rfl, by decide⟩, by decide, by decide, by decide⟩

/-- C2 (amended): a chain containing a timestamp record that the length
guards reject (header-inclusive declared length below three timespecs for
SO_TIMESTAMPING, below one timespec for SO_TIMESTAMPNS) makes sk_receive
fail with -1; the hardware timestamp slot of the result is untouched, and
the software slot holds either its initial value or the first timespec at
the data offset of a guard-passing SO_TIMESTAMPNS record.  Because the
guard thresholds omit the cmsg header, a record whose declared payload is
short by up to one header's worth of bytes is not rejected and the stored
timespec can extend past its declared extent. -/
theorem sk_receive_truncated_fails (cms : List cmsghdr) (hwts : hw_timestamp)
    (cnt : Int) (htr : ∃ cm ∈ cms, cmsg_guard_rejected cm) :
    (sk_receive POLLPRI 0 .timeout cnt cms hwts).1 = -1 ∧
    (sk_receive POLLPRI 0 .timeout cnt cms hwts).2.1.ts = hwts.ts ∧
    ((sk_receive POLLPRI 0 .timeout cnt cms hwts).2.1.sw = hwts.sw ∨
      ∃ cm ∈ cms, cm.cmsg_level = SOL_SOCKET ∧
        cm.cmsg_type = SO_TIMESTAMPNS ∧ sizeof_timespec ≤ cm.cmsg_len ∧
        ∃ v, cm.cmsg_data.get? 0 = some v ∧
          (sk_receive POLLPRI 0 .timeout cnt cms hwts).2.1.sw = v) := by
  have herr := cmsg_loop_guard_rejected cms none hwts htr
  have hrecv : sk_receive POLLPRI 0 .timeout cnt cms hwts =
      ((sk_receive_extract cms hwts cnt).1,
       (sk_receive_extract cms hwts cnt).2, 0) := by
    simp [sk_receive, MSG_ERRQUEUE]
  have hext : sk_receive_extract cms hwts cnt =
      ((sk_receive_cmsg_loop cms none hwts).1,
       (sk_receive_cmsg_loop cms none hwts).2.2) := by
    simp only [sk_receive_extract]
    rw [if_pos (by rw [herr]; decide)]
  rw [hrecv, hext, herr]
  refine ⟨rfl, (cmsg_loop_preserves cms none hwts).2, ?_⟩
  exact cmsg_loop_sw cms none hwts

/-- C2 (amended) witness: a SO_TIMESTAMPING record with declared length 32
(below the 48-byte guard threshold) makes the receive fail. -/
theorem sk_receive_truncated_fails_witness :
    (sk_receive POLLPRI 0 .timeout 7 [cmTrunc] hwts0).1 = -1 ∧
    (sk_receive POLLPRI 0 .timeout 7 [cmTrunc] hwts0).2.1.ts = hwts0.ts ∧
    ((sk_receive POLLPRI 0 .timeout 7 [cmTrunc] hwts0).2.1.sw = hwts0.sw ∨
      ∃ cm ∈ [cmTrunc], cm.cmsg_level = SOL_SOCKET ∧
        cm.cmsg_type = SO_TIMESTAMPNS ∧ sizeof_timespec ≤ cm.cmsg_len ∧
        ∃ v, cm.cmsg_data.get? 0 = some v ∧
          (sk_receive POLLPRI 0 .timeout 7 [cmTrunc] hwts0).2.1.sw = v) :=
  sk_receive_truncated_fails [cmTrunc] hwts0 7
    ⟨cmTrunc, List.mem_cons_self _ _, Or.inl ⟨rfl, rfl, by decide⟩⟩

/-- The filters sk_timestamping_init hands to hwts_init are exactly those
of its hardware-configuration step, whatever the later socket options do. -/
theorem sk_timestamping_init_attempts (g : SkGlobals) (env : SockEnv)
    (type : timestamp_type) (transport : transport_type) :
    (sk_timestamping_init g env type transport).hwts_attempts =
      (sk_timestamping_init_hw env type transport).2 := by
  simp only [sk_timestamping_init]
  split_ifs <;> rfl

/-- When the hardware-configuration step fails, sk_timestamping_init
returns its error code. -/
theorem sk_timestamping_init_err_of_hw (g : SkGlobals) (env : SockEnv)
    (type : timestamp_type) (transport : transport_type)
    (h : (sk_timestamping_init_hw env type transport).1 ≠ 0) :
    (sk_timestamping_init g env type transport).err =
      (sk_timestamping_init_hw env type transport).1 := by
  simp only [sk_timestamping_init]
  rw [if_pos h]

/-- C3: for every hardware timestamp kind and every transport with a
defined filter mapping (L4 event filter for the UDP transports, L2 event
filter for raw Ethernet), when the driver rejects the broad
HWTSTAMP_FILTER_PTP_V2_EVENT attempt, sk_timestamping_init makes exactly
one further hwts_init attempt with the transport-specific filter — the
attempt list is exactly those two filters, so no third attempt exists —
and if the second attempt is also rejected the call fails with its error. -/
theorem sk_timestamping_init_single_fallback (g : SkGlobals) (env : SockEnv)
    (type : timestamp_type) (transport : transport_type) (filter2 : Nat)
    (hsw : type ≠ .TS_SOFTWARE)
    (hmap : transportFilter transport = some filter2)
    (hrej : hwts_init env.driver HWTSTAMP_FILTER_PTP_V2_EVENT
      (decide (type = .TS_ONESTEP)) ≠ 0) :
    (sk_timestamping_init g env type transport).hwts_attempts =
      [HWTSTAMP_FILTER_PTP_V2_EVENT, filter2] ∧
    (hwts_init env.driver filter2 (decide (type = .TS_ONESTEP)) ≠ 0 →
      (sk_timestamping_init g env type transport).err =
        hwts_init env.driver filter2 (decide (type = .TS_ONESTEP)) ∧
      (sk_timestamping_init g env type transport).err ≠ 0) ∧
    transportFilter .TRANS_UDP_IPV4 = some HWTSTAMP_FILTER_PTP_V2_L4_EVENT ∧
    transportFilter .TRANS_UDP_IPV6 = some HWTSTAMP_FILTER_PTP_V2_L4_EVENT ∧
    transportFilter .TRANS_IEEE_802_3 =
      some HWTSTAMP_FILTER_PTP_V2_L2_EVENT := by
  have hw_eq : sk_timestamping_init_hw env type transport =
      (hwts_init env.driver filter2 (decide (type = .TS_ONESTEP)),
       [HWTSTAMP_FILTER_PTP_V2_EVENT, filter2]) := by
    simp only [sk_timestamping_init_hw]
    rw [if_pos hsw, hmap]
    simp only []
    rw [if_pos hrej]
  refine ⟨?_, ?_, rfl, rfl, rfl⟩
  · rw [sk_timestamping_init_attempts, hw_eq]
  · intro h2
    have herr := sk_timestamping_init_err_of_hw g env type transport
      (by rw [hw_eq]; exact h2)
    rw [herr, hw_eq]
    exact ⟨rfl, h2⟩

/-- C3 witness: with a driver that rejects every request, hardware
timestamping over raw Ethernet attempts exactly the broad filter followed
by the L2 event filter and fails. -/
theorem sk_timestamping_init_single_fallback_witness :
    (sk_timestamping_init g0 envReject .TS_HARDWARE
        .TRANS_IEEE_802_3).hwts_attempts =
      [HWTSTAMP_FILTER_PTP_V2_EVENT, HWTSTAMP_FILTER_PTP_V2_L2_EVENT] ∧
    (hwts_init envReject.driver HWTSTAMP_FILTER_PTP_V2_L2_EVENT
        (decide ((.TS_HARDWARE : timestamp_type) = .TS_ONESTEP)) ≠ 0 →
      (sk_timestamping_init g0 envReject .TS_HARDWARE .TRANS_IEEE_802_3).err =
        hwts_init envReject.driver HWTSTAMP_FILTER_PTP_V2_L2_EVENT
          (decide ((.TS_HARDWARE : timestamp_type) = .TS_ONESTEP)) ∧
      (sk_timestamping_init g0 envReject .TS_HARDWARE
        .TRANS_IEEE_802_3).err ≠ 0) ∧
    transportFilter .TRANS_UDP_IPV4 = some HWTSTAMP_FILTER_PTP_V2_L4_EVENT ∧
    transportFilter .TRANS_UDP_IPV6 = some HWTSTAMP_FILTER_PTP_V2_L4_EVENT ∧
    transportFilter .TRANS_IEEE_802_3 =
      some HWTSTAMP_FILTER_PTP_V2_L2_EVENT :=
  sk_timestamping_init_single_fallback g0 envReject .TS_HARDWARE
    .TRANS_IEEE_802_3 HWTSTAMP_FILTER_PTP_V2_L2_EVENT (by decide) rfl
    (by decide)

/-- C8 counterexample: with sk_check_fupsync left at zero, a successful
run of the negotiator writes the SO_TIMESTAMPNS (receive timestamp with
every packet) option with value 0 — disabling it — and never writes it
with value 1, so the option is not always enabled. -/
theorem sk_timestamping_init_fupsync_counterexample :
    (sk_timestamping_init g0 envOk .TS_SOFTWARE .TRANS_UDP_IPV4).err = 0 ∧
    (SO_TIMESTAMPNS, 0) ∈
      (sk_timestamping_init g0 envOk .TS_SOFTWARE
        .TRANS_UDP_IPV4).sockopt_writes ∧
    ¬ (SO_TIMESTAMPNS, 1) ∈
      (sk_timestamping_init g0 envOk .TS_SOFTWARE
        .TRANS_UDP_IPV4).sockopt_writes := by
  decide

/-- C8 (amended): every successful run of the negotiator performs the
SO_TIMESTAMPNS socket option write, but with value 1 only when the global
sk_check_fupsync option is set, and value 0 (disabling it) otherwise. -/
theorem sk_timestamping_init_timestampns_write (g : SkGlobals) (env : SockEnv)
    (type : timestamp_type) (transport : transport_type)
    (hok : (sk_timestamping_init g env type transport).err = 0) :
    (SO_TIMESTAMPNS, if g.sk_check_fupsync ≠ 0 then 1 else 0) ∈
      (sk_timestamping_init g env type transport).sockopt_writes := by
  simp only [sk_timestamping_init] at hok ⊢
  by_cases h1 : (sk_timestamping_init_hw env type transport).1 ≠ 0
  · rw [if_pos h1] at hok
    exact absurd hok h1
  · rw [if_neg h1] at hok ⊢
    by_cases h2 : ¬ env.so_timestamping_ok
    · rw [if_pos h2] at hok
      simp at hok
    · rw [if_neg h2] at hok ⊢
      by_cases h4 : env.so_select_err_queue_ok = true
      · rw [if_pos h4] at hok ⊢
        simp only [sk_general_init] at hok ⊢
        by_cases h3 : env.so_timestampns_ok = true
        · rw [if_pos h3] at hok ⊢
          split <;> simp
        · rw [if_neg h3] at hok
          simp at hok
      · rw [if_neg h4] at hok ⊢
        simp only [sk_general_init] at hok ⊢
        by_cases h3 : env.so_timestampns_ok = true
        · rw [if_pos h3] at hok ⊢
          split <;> simp
        · rw [if_neg h3] at hok
          simp at hok

/-- C8 (amended) witness: the successful software-timestamping run with
sk_check_fupsync zero contains the SO_TIMESTAMPNS write with the value the
flag selects. -/
theorem sk_timestamping_init_timestampns_write_witness :
    (SO_TIMESTAMPNS, if g0.sk_check_fupsync ≠ 0 then 1 else 0) ∈
      (sk_timestamping_init g0 envOk .TS_SOFTWARE
        .TRANS_UDP_IPV4).sockopt_writes :=
  sk_timestamping_init_timestampns_write g0 envOk .TS_SOFTWARE
    .TRANS_UDP_IPV4 (by decide)

end LinuxPtpSk
